import Mathlib

/-!
Shallow embedding of the glasses try-on repository, covering:
 - `FastRenderer` (src/renderer.ts): material optimization, opaque/transparent
   bucketing, render order, add/remove of subtrees, identity-keyed cache;
 - `FaceMeasurementSystem` (src/faceMeasurement.ts): throttled measurement
   sampling, confidence fraction, bounded ring buffer;
 - `AutoAdjuster` (autoAdjuster.ts): scale/position calculation with clamping
   and a confidence gate;
 - persisted-settings loading (main.ts `loadSettings`, `loadBookmark`);
 - the per-frame pose computation `drawGlasses` (the MediaPipe main.ts
   variant that drives the 3D model): landmark guards, eye/ear distances,
   yaw/pitch/roll from landmark depth, Euler order YXZ.

Numbers are modelled as exact rationals where the code only does rational
arithmetic, and as real numbers where the code uses sqrt/atan2.
-/

namespace Tryon

/-! ## FastRenderer (src/renderer.ts) -/

/-- Culling side of a Three.js material (`THREE.FrontSide` / `THREE.BackSide`
/ `THREE.DoubleSide`). -/
inductive Side
  | front
  | back
  | double
deriving DecidableEq, Repr

/-- State of a Three.js material, restricted to the fields read or written by
`FastRenderer.optimizeMaterial` and the bucketing check in `addObject`.
`isStandard` records whether the material is a `MeshStandardMaterial` or a
`MeshPhysicalMaterial` (the `instanceof` guard in `optimizeMaterial`).
`blending`, `blendSrc` and `blendDst` carry the Three.js numeric constants. -/
structure Material where
  isStandard : Bool
  transparent : Bool
  opacity : ℚ
  depthWrite : Bool
  depthTest : Bool
  side : Side
  alphaTest : ℚ
  alphaToCoverage : Bool
  blending : ℕ
  blendSrc : ℕ
  blendDst : ℕ
deriving DecidableEq, Repr

/-- Three.js `NormalBlending`. -/
def normalBlending : ℕ := 1

/-- Three.js `SrcAlphaFactor`. -/
def srcAlphaFactor : ℕ := 204

/-- Three.js `OneMinusSrcAlphaFactor`. -/
def oneMinusSrcAlphaFactor : ℕ := 205

/-- A mesh node: its identity and the uuids of its materials (the code
normalizes `child.material` to an array; a single-material mesh has a
one-element list). -/
structure Mesh where
  id : ℕ
  mats : List ℕ
deriving DecidableEq, Repr

/-- An object handed to `addObject` or `removeObject`: its identity and the
meshes found in its subtree, in `traverse` order. -/
structure Obj where
  id : ℕ
  meshes : List Mesh
deriving DecidableEq, Repr

/-- State of a `FastRenderer`: the material heap (uuid-indexed, since material
instances are shared and mutated in place), the identity-keyed render cache
(the set of uuids that `renderCache` holds), the two bucket lists of mesh ids,
the per-mesh `renderOrder`, and the scene graph root objects. -/
structure RState where
  store : ℕ → Material
  cache : List ℕ
  opaqueObjs : List ℕ
  transparentObjs : List ℕ
  renderOrder : ℕ → ℤ
  scene : List ℕ

/-- Pointwise update of the material heap. -/
def setMat (s : ℕ → Material) (u : ℕ) (m : Material) : ℕ → Material :=
  fun j => if j = u then m else s j

/-- The two mutation branches of `optimizeMaterial` for a
standard/physical material: the opaque branch
(`!mat.transparent && mat.opacity >= 1`) and the transparent branch. -/
def optimizeStandard (m : Material) : Material :=
  if !m.transparent && decide (1 ≤ m.opacity) then
    { m with transparent := false, alphaTest := 0, depthWrite := true,
             depthTest := true, side := Side.front, alphaToCoverage := false }
  else
    { m with transparent := true, depthWrite := false, depthTest := true,
             side := Side.double, alphaTest := 1/100, alphaToCoverage := true,
             blending := normalBlending, blendSrc := srcAlphaFactor,
             blendDst := oneMinusSrcAlphaFactor }

/-- One iteration of the `materials.forEach` loop in `optimizeMaterial`: on a
cache miss the material is optimized (only when it is standard/physical) and
recorded in the cache; on a cache hit nothing happens. -/
def optimizeOne (st : RState) (u : ℕ) : RState :=
  if u ∈ st.cache then st
  else
    let m := st.store u
    let m2 := if m.isStandard then optimizeStandard m else m
    { st with store := setMat st.store u m2, cache := u :: st.cache }

/-- `FastRenderer.optimizeMaterial(mesh)`: optimize each of the mesh's
materials through the cache. -/
def optimizeMaterial (st : RState) (mesh : Mesh) : RState :=
  mesh.mats.foldl optimizeOne st

/-- The transparency test in `addObject`:
`materials.some(mat => mat.transparent || mat.opacity < 1)`, evaluated on the
(possibly just optimized) material heap. -/
def hasTransparency (store : ℕ → Material) (mesh : Mesh) : Bool :=
  mesh.mats.any (fun u => (store u).transparent || decide ((store u).opacity < 1))

/-- The body of the `traverse` callback in `addObject` for one mesh child:
optimize its materials, then push it into the transparent bucket with
`renderOrder = 100` or into the opaque bucket with `renderOrder = 0`. -/
def addMesh (st : RState) (mesh : Mesh) : RState :=
  let st1 := optimizeMaterial st mesh
  if hasTransparency st1.store mesh then
    { st1 with transparentObjs := st1.transparentObjs ++ [mesh.id],
               renderOrder := fun j => if j = mesh.id then 100 else st1.renderOrder j }
  else
    { st1 with opaqueObjs := st1.opaqueObjs ++ [mesh.id],
               renderOrder := fun j => if j = mesh.id then 0 else st1.renderOrder j }

/-- `FastRenderer.addObject(object)`: add the root to the scene then process
every mesh of the subtree in traversal order. -/
def addObject (st : RState) (o : Obj) : RState :=
  o.meshes.foldl addMesh { st with scene := st.scene ++ [o.id] }

/-- The body of the `traverse` callback in `removeObject` for one mesh child:
`indexOf`/`splice` removes the first occurrence of the mesh from each bucket
(a no-op when the mesh is absent, matching `indexOf === -1`). -/
def removeMesh (st : RState) (mesh : Mesh) : RState :=
  { st with opaqueObjs := st.opaqueObjs.erase mesh.id,
            transparentObjs := st.transparentObjs.erase mesh.id }

/-- `FastRenderer.removeObject(object)`: remove the root from the scene then
purge every mesh of the subtree from both buckets. -/
def removeObject (st : RState) (o : Obj) : RState :=
  o.meshes.foldl removeMesh { st with scene := st.scene.erase o.id }

/-! ## FaceMeasurementSystem (src/faceMeasurement.ts) -/

/-- A 3D landmark point (`LandmarkPoint {x, y, z}`). -/
structure Pt where
  x : ℝ
  y : ℝ
  z : ℝ

/-- The nine landmarks fetched by `measureFace`, each possibly unresolved
(`getLandmark` returns the point or `null`). -/
structure Landmarks where
  leftTemple : Option Pt
  rightTemple : Option Pt
  noseBridge : Option Pt
  forehead : Option Pt
  chin : Option Pt
  leftEyeOuter : Option Pt
  rightEyeOuter : Option Pt
  leftEyeInner : Option Pt
  rightEyeInner : Option Pt

/-- A `FaceMeasurements` record. -/
structure Meas where
  faceWidth : ℝ
  eyeDistance : ℝ
  noseWidth : ℝ
  faceHeight : ℝ
  confidence : ℝ
  timestamp : ℤ

/-- Mutable state of a `FaceMeasurementSystem`: the ring buffer, the last
measurement time and the throttle interval (1000 ms by default). -/
structure MState where
  measurements : List Meas
  lastMeasurementTime : ℤ
  measurementInterval : ℤ

/-- Initial `FaceMeasurementSystem` state (empty buffer, `lastMeasurementTime
= 0`, `measurementInterval = 1000`). -/
def initMState : MState :=
  { measurements := [], lastMeasurementTime := 0, measurementInterval := 1000 }

/-- Euclidean distance between two landmark points (`calculateDistance`). -/
noncomputable def calculateDistance (p1 p2 : Pt) : ℝ :=
  Real.sqrt ((p2.x - p1.x) * (p2.x - p1.x) + (p2.y - p1.y) * (p2.y - p1.y) +
    (p2.z - p1.z) * (p2.z - p1.z))

/-- Number of resolvable landmarks among the nine expected ones, in the order
of the `availableLandmarks` array of `measureFace`. -/
def countAvailable (L : Landmarks) : ℕ :=
  L.leftTemple.isSome.toNat + L.rightTemple.isSome.toNat +
  L.noseBridge.isSome.toNat + L.forehead.isSome.toNat +
  L.chin.isSome.toNat + L.leftEyeOuter.isSome.toNat +
  L.rightEyeOuter.isSome.toNat + L.leftEyeInner.isSome.toNat +
  L.rightEyeInner.isSome.toNat

/-- Ring-buffer insertion used by `measureFace`: `push` the new measurement,
then `shift` the oldest one out when the length exceeds 10. -/
def pushMeasurement (buf : List Meas) (m : Meas) : List Meas :=
  let b := buf ++ [m]
  if 10 < b.length then b.tail else b

/-- `FaceMeasurementSystem.measureFace()`: throttled to one sample per
interval; requires the two temples and the nose bridge; estimates the other
distances proportionally when their landmarks are missing; confidence is the
resolvable fraction of the nine landmarks; stores the sample in the ring
buffer. Returns the sample (or `none`) together with the updated state. -/
noncomputable def measureFace (st : MState) (L : Landmarks) (now : ℤ) :
    Option Meas × MState :=
  if now - st.lastMeasurementTime < st.measurementInterval then (none, st)
  else
    match L.leftTemple, L.rightTemple, L.noseBridge with
    | some lt, some rt, some _ =>
      let faceWidth := calculateDistance lt rt
      let eyeDistance :=
        match L.leftEyeOuter, L.rightEyeOuter with
        | some a, some b => calculateDistance a b
        | _, _ => faceWidth * 0.6
      let noseWidth :=
        match L.leftEyeInner, L.rightEyeInner with
        | some a, some b => calculateDistance a b
        | _, _ => faceWidth * 0.2
      let faceHeight :=
        match L.forehead, L.chin with
        | some a, some b => calculateDistance a b
        | _, _ => faceWidth * 1.3
      let confidence := (countAvailable L : ℝ) / 9
      let m : Meas := { faceWidth := faceWidth, eyeDistance := eyeDistance,
                        noseWidth := noseWidth, faceHeight := faceHeight,
                        confidence := confidence, timestamp := now }
      (some m, { st with measurements := pushMeasurement st.measurements m,
                         lastMeasurementTime := now })
    | _, _, _ => (none, st)

/-- `FaceMeasurementSystem.clearMeasurements()`. -/
def clearMeasurements (st : MState) : MState :=
  { st with measurements := [] }

/-- An externally driven call against the measurement system: a (throttled)
`measureFace` with the landmarks and clock of that call, or an explicit
`clearMeasurements`. -/
inductive SysOp
  | measure (L : Landmarks) (now : ℤ)
  | clear

/-- Apply one call to the measurement-system state. -/
noncomputable def sysStep (st : MState) (op : SysOp) : MState :=
  match op with
  | SysOp.measure L now => (measureFace st L now).2
  | SysOp.clear => clearMeasurements st

/-! ## AutoAdjuster (autoAdjuster.ts) -/

/-- Reference face width (`REFERENCE_FACE_WIDTH`, 0.14). -/
noncomputable def referenceFaceWidth : ℝ := 0.14

/-- Reference eye distance (`REFERENCE_EYE_DISTANCE`, 0.063). -/
noncomputable def referenceEyeDistance : ℝ := 0.063

/-- Mutable state of an `AutoAdjuster`, restricted to the fields that the
adjustment computations read: the base scale (settable through
`setBaseScale`), the auto-scale switch and the enable/callback pair. -/
structure AutoState where
  baseScale : ℝ
  adjustScaleAutomatically : Bool
  isAutoAdjustEnabled : Bool
  hasCallback : Bool

/-- The settings record passed to the adjustment callback
(`AdjustmentSettings`). -/
structure AdjustmentSettings where
  scale : ℝ
  posX : ℝ
  posY : ℝ
  posZ : ℝ
  rotX : ℝ
  rotY : ℝ
  rotZ : ℝ

/-- `AutoAdjuster.calculateScale(measurements)`: return the base scale
unchanged when auto-scale is off; otherwise a weighted face-width/eye-distance
ratio times the base scale, clamped to `[0.5, 3.0]`. -/
noncomputable def calculateScale (st : AutoState) (m : Meas) : ℝ :=
  if st.adjustScaleAutomatically then
    let widthRatio := m.faceWidth / referenceFaceWidth
    let eyeRatio := m.eyeDistance / referenceEyeDistance
    let scale := (widthRatio * 0.7 + eyeRatio * 0.3) * st.baseScale
    max 0.5 (min 3.0 scale)
  else
    st.baseScale

/-- `AutoAdjuster.calculatePositionAdjustments(measurements)`. -/
noncomputable def calculatePositionAdjustments (m : Meas) : ℝ × ℝ × ℝ :=
  let heightRatio := m.faceHeight / (referenceFaceWidth * 1.3)
  let posY := (heightRatio - 1.0) * 0.02
  let noseRatio := m.noseWidth / (referenceFaceWidth * 0.2)
  let posZ := -0.05 + (noseRatio - 1.0) * 0.01
  (0, max (-0.1) (min 0.1 posY), max (-0.15) (min 0.05 posZ))

/-- `AutoAdjuster.updateAdjustments()`, as a function of the averaged
measurement it reads: returns the settings passed to the adjustment callback,
or `none` when the callback is not invoked (disabled, no callback, no
measurements, or confidence below 0.5). -/
noncomputable def updateAdjustments (st : AutoState) (avg : Option Meas) :
    Option AdjustmentSettings :=
  if !st.isAutoAdjustEnabled || !st.hasCallback then none
  else
    match avg with
    | none => none
    | some m =>
      if m.confidence < 0.5 then none
      else
        let scale := calculateScale st m
        let p := calculatePositionAdjustments m
        some { scale := scale, posX := p.1, posY := p.2.1, posZ := p.2.2,
               rotX := 0, rotY := 0, rotZ := 0 }

/-! ## Persisted settings (src/main.ts `loadSettings`, main.ts `loadBookmark`) -/

/-- The `GlassesSettings` object of the MindAR main.ts. Fields are optional
values because a settings object overwritten from parsed JSON can end up with
`undefined` fields; the defaults are all present. -/
structure GlassesSettings where
  posX : Option ℚ
  posY : Option ℚ
  posZ : Option ℚ
  scale : Option ℚ
deriving DecidableEq, Repr

/-- Initial `currentSettings` of the MindAR main.ts
(`posX 0, posY 0.05, posZ 0, scale 0.05`). -/
def defaultSettings : GlassesSettings :=
  { posX := some 0, posY := some (5/100), posZ := some 0, scale := some (5/100) }

/-- A successfully parsed persisted record: each expected key may be absent. -/
structure SavedRec where
  posX : Option ℚ
  posY : Option ℚ
  posZ : Option ℚ
  scale : Option ℚ
deriving DecidableEq, Repr

/-- `loadSettings()`: the stored string is absent (`none`), fails to parse
(`Except.error`), or parses to a record which replaces `currentSettings`
wholesale (`currentSettings = JSON.parse(saved)`). The `Bool` is the return
value; the parse failure is caught by the surrounding `try`. -/
def loadSettings (saved : Option (Except Unit SavedRec)) (cur : GlassesSettings) :
    GlassesSettings × Bool :=
  match saved with
  | none => (cur, false)
  | some (Except.error _) => (cur, false)
  | some (Except.ok r) =>
    ({ posX := r.posX, posY := r.posY, posZ := r.posZ, scale := r.scale }, true)

/-- The adjustment record round-tripped by `saveBookmark`/`loadBookmark` in
the MediaPipe main.ts, with optional values for the same reason as
`GlassesSettings`. -/
structure BookmarkAdjustments where
  positionX : Option ℚ
  positionY : Option ℚ
  positionZ : Option ℚ
  rotationX : Option ℚ
  rotationY : Option ℚ
  rotationZ : Option ℚ
  scaleMultiplier : Option ℚ
deriving DecidableEq, Repr

/-- `loadBookmark()`: absent key or parse failure leaves `adjustments`
untouched and returns `false`; a parsed record is copied into `adjustments`
field by field, unconditionally (`adjustments.positionX = bookmark.positionX`
and so on). -/
def loadBookmark (saved : Option (Except Unit BookmarkAdjustments))
    (cur : BookmarkAdjustments) : BookmarkAdjustments × Bool :=
  match saved with
  | none => (cur, false)
  | some (Except.error _) => (cur, false)
  | some (Except.ok b) =>
    ({ positionX := b.positionX, positionY := b.positionY, positionZ := b.positionZ,
       rotationX := b.rotationX, rotationY := b.rotationY, rotationZ := b.rotationZ,
       scaleMultiplier := b.scaleMultiplier }, true)

/-! ## Per-frame pose computation (`drawGlasses`, MediaPipe main.ts) -/

/-- Three.js Euler rotation orders. -/
inductive EulerOrder
  | xyz
  | yxz
  | zxy
  | zyx
  | yzx
  | xzy
deriving DecidableEq, Repr

/-- Transform state of the overlay object (`glassesModel`): position,
Euler rotation with its application order, and scale. -/
structure Transform where
  position : ℝ × ℝ × ℝ
  rotOrder : EulerOrder
  rotX : ℝ
  rotY : ℝ
  rotZ : ℝ
  scale : ℝ × ℝ × ℝ

/-- The module-level `adjustments` object of the MediaPipe main.ts. -/
structure Adjustments where
  positionX : ℝ
  positionY : ℝ
  positionZ : ℝ
  rotationX : ℝ
  rotationY : ℝ
  rotationZ : ℝ
  scaleMultiplier : ℝ

/-- `Math.hypot` on two arguments. -/
noncomputable def hypot (a b : ℝ) : ℝ :=
  Real.sqrt (a * a + b * b)

/-- `Math.atan2(y, x)`. -/
noncomputable def atan2 (y x : ℝ) : ℝ :=
  if 0 < x then Real.arctan (y / x)
  else if x < 0 then
    if 0 ≤ y then Real.arctan (y / x) + Real.pi else Real.arctan (y / x) - Real.pi
  else
    if 0 < y then Real.pi / 2 else if y < 0 then -(Real.pi / 2) else 0

/-- The per-frame scale of `drawGlasses`:
`Math.max(eyeDistance, earSpan) * adjustments.scaleMultiplier`, where
`earSpan` is the pixel distance between the two ear landmarks. There is no
clamping. -/
noncomputable def drawScaleOf (eyeDistance earSpan mult : ℝ) : ℝ :=
  max eyeDistance earSpan * mult

/-- The 3D-pose part of `drawGlasses(landmarks)` from the MediaPipe main.ts
(the variant that drives the model with z-depth head pose). `lm` is the
landmark array (`none` for an absent entry), `unproj` is
`THREE.Vector3.unproject` through the active camera, and `prior` is the
overlay transform carried over from the previous frame. Accessing a field of
an absent landmark, as the code does for the inner-eye entries 133 and 362
without a guard, is a thrown `TypeError`, modelled as `Except.error`.
The landmark z values pass through `|| 0`, which is the identity on every
number except NaN, and is therefore dropped. -/
noncomputable def drawGlassesPose (lm : ℕ → Option Pt) (adj : Adjustments)
    (w h : ℝ) (unproj : ℝ × ℝ × ℝ → ℝ × ℝ × ℝ) (prior : Transform) :
    Except Unit Transform :=
  match lm 33, lm 263, lm 168 with
  | some leftEyeOuter, some rightEyeOuter, some noseBridge =>
    match lm 133, lm 362 with
    | some _leftEyeInner, some _rightEyeInner =>
      let lx := leftEyeOuter.x * w
      let ly := leftEyeOuter.y * h
      let rx := rightEyeOuter.x * w
      let ry := rightEyeOuter.y * h
      let nx := noseBridge.x * w
      let ny := noseBridge.y * h
      let eyeDistance := hypot (rx - lx) (ry - ly)
      let centerX := nx
      let centerY := ny - eyeDistance * 0.15
      match lm 234, lm 454, lm 4, lm 10 with
      | some leftEar, some rightEar, some noseTip, some foreheadTop =>
        let leftEarX := leftEar.x * w
        let leftEarY := leftEar.y * h
        let rightEarX := rightEar.x * w
        let rightEarY := rightEar.y * h
        let earAwareX := (leftEarX + rightEarX) / 2
        let earAwareY := (leftEarY + rightEarY) / 2
        let finalX := centerX * 0.4 + earAwareX * 0.6
        let finalY := centerY * 0.4 + earAwareY * 0.6
        let nxNorm := (finalX / w) * 2 - 1 + adj.positionX
        let nyNorm := -(finalY / h) * 2 + 1 + adj.positionY * eyeDistance / h
        let vec := unproj (nxNorm, nyNorm, adj.positionZ)
        let s := drawScaleOf eyeDistance
          (hypot (rightEarX - leftEarX) (rightEarY - leftEarY)) adj.scaleMultiplier
        let yawFromEars := (rightEar.z - leftEar.z) * 2
        let pitchFromFace := (foreheadTop.z - noseTip.z) * 3
        let rollFromEars := atan2 (rightEarY - leftEarY) (rightEarX - leftEarX)
        Except.ok { position := vec, rotOrder := EulerOrder.yxz,
                    rotX := pitchFromFace + adj.rotationX,
                    rotY := yawFromEars + adj.rotationY,
                    rotZ := rollFromEars + adj.rotationZ,
                    scale := (s, s, s) }
      | _, _, _, _ => Except.ok prior
    | _, _ => Except.error ()
  | _, _, _ => Except.ok prior

/-! ## Euler-order semantics

Three.js applies an Euler of order `YXZ` as the rotation `Ry ∘ Rx ∘ Rz`
(acting on column vectors). The following functions give the action of each
elementary rotation and of every order on a vector. -/

/-- Rotation by angle `a` about the X axis, applied to a vector. -/
noncomputable def rotXv (a : ℝ) (v : ℝ × ℝ × ℝ) : ℝ × ℝ × ℝ :=
  (v.1, Real.cos a * v.2.1 - Real.sin a * v.2.2,
    Real.sin a * v.2.1 + Real.cos a * v.2.2)

/-- Rotation by angle `a` about the Y axis, applied to a vector. -/
noncomputable def rotYv (a : ℝ) (v : ℝ × ℝ × ℝ) : ℝ × ℝ × ℝ :=
  (Real.cos a * v.1 + Real.sin a * v.2.2, v.2.1,
    -(Real.sin a) * v.1 + Real.cos a * v.2.2)

/-- Rotation by angle `a` about the Z axis, applied to a vector. -/
noncomputable def rotZv (a : ℝ) (v : ℝ × ℝ × ℝ) : ℝ × ℝ × ℝ :=
  (Real.cos a * v.1 - Real.sin a * v.2.1,
    Real.sin a * v.1 + Real.cos a * v.2.1, v.2.2)

/-- Action of the composed Euler rotation with angles `ax`, `ay`, `az` about
the X, Y, Z axes, in the given Three.js application order, on a vector. -/
noncomputable def eulerApply (o : EulerOrder) (ax ay az : ℝ) (v : ℝ × ℝ × ℝ) :
    ℝ × ℝ × ℝ :=
  match o with
  | EulerOrder.xyz => rotXv ax (rotYv ay (rotZv az v))
  | EulerOrder.yxz => rotYv ay (rotXv ax (rotZv az v))
  | EulerOrder.zxy => rotZv az (rotXv ax (rotYv ay v))
  | EulerOrder.zyx => rotZv az (rotYv ay (rotXv ax v))
  | EulerOrder.yzx => rotYv ay (rotZv az (rotXv ax v))
  | EulerOrder.xzy => rotXv ax (rotZv az (rotYv ay v))

/-! ## Concrete fixtures used by counterexamples and witnesses -/

/-- An `AutoAdjuster` state reachable through `setBaseScale(10)` with
auto-scale left at its default (`false`). -/
noncomputable def stBase10 : AutoState :=
  { baseScale := 10, adjustScaleAutomatically := false,
    isAutoAdjustEnabled := true, hasCallback := true }

/-- An `AutoAdjuster` state with auto-scale enabled and base scale 1. -/
noncomputable def stAutoOn : AutoState :=
  { baseScale := 1, adjustScaleAutomatically := true,
    isAutoAdjustEnabled := true, hasCallback := true }

/-- A concrete measurement sample. -/
noncomputable def mFix : Meas :=
  { faceWidth := 0, eyeDistance := 0, noseWidth := 0, faceHeight := 0,
    confidence := 1, timestamp := 0 }

/-- A parsed settings record that lacks the `scale` key. -/
def recNoScale : SavedRec :=
  { posX := some 1, posY := some 2, posZ := some 3, scale := none }

/-- A concrete landmark point at the origin. -/
noncomputable def p0 : Pt :=
  { x := 0, y := 0, z := 0 }

/-- A landmark set in which all nine expected landmarks resolve. -/
noncomputable def allLandmarks : Landmarks :=
  { leftTemple := some p0, rightTemple := some p0, noseBridge := some p0,
    forehead := some p0, chin := some p0, leftEyeOuter := some p0,
    rightEyeOuter := some p0, leftEyeInner := some p0, rightEyeInner := some p0 }

/-- A concrete fully-opaque standard material (a frame material). -/
def matFrame : Material :=
  { isStandard := true, transparent := false, opacity := 1, depthWrite := true,
    depthTest := true, side := Side.front, alphaTest := 0,
    alphaToCoverage := false, blending := normalBlending,
    blendSrc := srcAlphaFactor, blendDst := oneMinusSrcAlphaFactor }

/-- A concrete transparent material that is not a standard/physical material
(for example a `MeshBasicMaterial` lens), with `depthWrite` initially on. -/
def matLensBasic : Material :=
  { isStandard := false, transparent := true, opacity := 15/100,
    depthWrite := true, depthTest := true, side := Side.front, alphaTest := 0,
    alphaToCoverage := false, blending := normalBlending,
    blendSrc := srcAlphaFactor, blendDst := oneMinusSrcAlphaFactor }

/-- A fresh renderer state whose heap holds `matFrame` at uuid 1 (and
everywhere else except uuid 2) and `matLensBasic` at uuid 2. -/
def rInit : RState :=
  { store := fun u => if u = 2 then matLensBasic else matFrame, cache := [],
    opaqueObjs := [], transparentObjs := [], renderOrder := fun _ => 0,
    scene := [] }

/-- A one-mesh object used by the C9 witness. -/
def objW : Obj :=
  { id := 5, meshes := [Mesh.mk 1 [1]] }

/-- A two-mesh subtree: an opaque frame mesh (uuid 1) and a transparent
non-standard lens mesh (uuid 2). -/
def objFrameLens : Obj :=
  { id := 6, meshes := [Mesh.mk 1 [1], Mesh.mk 2 [2]] }

/-- A concrete transparent standard material (a lens on a
`MeshStandardMaterial`), with `depthWrite` initially on. -/
def matLens : Material :=
  { isStandard := true, transparent := true, opacity := 15/100,
    depthWrite := true, depthTest := true, side := Side.front, alphaTest := 0,
    alphaToCoverage := false, blending := normalBlending,
    blendSrc := srcAlphaFactor, blendDst := oneMinusSrcAlphaFactor }

/-- A material heap holding `matLens` at uuid 2 and `matFrame` elsewhere. -/
def storeFrameLens : ℕ → Material :=
  fun u => if u = 2 then matLens else matFrame

/-- The default `adjustments` object of the MediaPipe main.ts with the 3D
pose pipeline. -/
noncomputable def adj0 : Adjustments :=
  { positionX := 0.17, positionY := -0.23, positionZ := 0, rotationX := 1.65,
    rotationY := 0, rotationZ := 0, scaleMultiplier := 0.0025 }

/-- A prior overlay transform carried over from an earlier frame. -/
noncomputable def t0 : Transform :=
  { position := (0, 0, 0), rotOrder := EulerOrder.xyz, rotX := 0, rotY := 0,
    rotZ := 0, scale := (1, 1, 1) }

/-- A landmark array exposing only the guard landmarks 33, 263 and 168; in
particular the unguarded inner-eye landmark 133 is absent, as is ear 234. -/
noncomputable def lmGuardOnly : ℕ → Option Pt :=
  fun i => if i = 33 ∨ i = 263 ∨ i = 168 then some p0 else none

/-- A landmark array in which every landmark except ear 234 resolves. -/
noncomputable def lmNoLeftEar : ℕ → Option Pt :=
  fun i => if i = 234 then none else some p0

/-- A landmark array in which every landmark resolves. -/
noncomputable def lmAll : ℕ → Option Pt :=
  fun _ => some p0

/-! ## C7: the measurement ring buffer is bounded and FIFO -/

theorem pushMeasurement_length_le (buf : List Meas) (m : Meas)
    (h : buf.length ≤ 10) : (pushMeasurement buf m).length ≤ 10 := by
  unfold pushMeasurement
  by_cases h10 : 10 < (buf ++ [m]).length
  · rw [if_pos h10]
    simp only [List.length_tail, List.length_append, List.length_singleton]
    omega
  · rw [if_neg h10]
    simp only [List.length_append, List.length_singleton] at h10 ⊢
    omega

theorem sysStep_length_le (st : MState) (op : SysOp)
    (h : st.measurements.length ≤ 10) :
    (sysStep st op).measurements.length ≤ 10 := by
  cases op with
  | clear => simp [sysStep, clearMeasurements]
  | measure L now =>
    show ((measureFace st L now).2).measurements.length ≤ 10
    unfold measureFace
    by_cases ht : now - st.lastMeasurementTime < st.measurementInterval
    · rw [if_pos ht]
      exact h
    · rw [if_neg ht]
      rcases L.leftTemple with _ | lt <;> rcases L.rightTemple with _ | rt <;>
        rcases L.noseBridge with _ | nb <;>
        first
          | exact h
          | exact pushMeasurement_length_le _ _ h

theorem foldl_sysStep_length_le (ops : List SysOp) (st : MState)
    (h : st.measurements.length ≤ 10) :
    ((ops.foldl sysStep st).measurements).length ≤ 10 := by
  induction ops generalizing st with
  | nil => exact h
  | cons op ops ih => exact ih (sysStep st op) (sysStep_length_le st op h)

theorem pushMeasurement_drop (l : List Meas) (m : Meas) :
    pushMeasurement (l.drop (l.length - 10)) m = (l ++ [m]).drop (l.length + 1 - 10) := by
  by_cases hk : l.length ≤ 9
  · have h1 : l.length - 10 = 0 := by omega
    have h2 : l.length + 1 - 10 = 0 := by omega
    rw [h1, h2, List.drop_zero, List.drop_zero]
    unfold pushMeasurement
    rw [if_neg (by simp only [List.length_append, List.length_singleton]; omega)]
  · have hlen : (l.drop (l.length - 10)).length = 10 := by
      simp only [List.length_drop]; omega
    unfold pushMeasurement
    rw [if_pos (by
      simp only [List.length_append, List.length_singleton, List.length_drop]
      omega)]
    rw [← List.drop_one]
    rw [List.drop_append_of_le_length (by rw [hlen]; norm_num),
        List.drop_append_of_le_length (by omega)]
    rw [List.drop_drop]
    have heq : l.length - 10 + 1 = l.length + 1 - 10 := by omega
    rw [heq]

theorem foldl_pushMeasurement (ms : List Meas) :
    ms.foldl pushMeasurement [] = ms.drop (ms.length - 10) := by
  induction ms using List.reverseRecOn with
  | nil => rfl
  | append_singleton l m ih =>
    rw [List.foldl_append, List.foldl_cons, List.foldl_nil, ih, pushMeasurement_drop]
    simp

/-- C7: after any sequence of `measureFace` and `clearMeasurements` calls
starting from a fresh `FaceMeasurementSystem`, the ring buffer holds at most
10 entries; and for any sequence of successful insertions starting from an
empty buffer, the buffer holds exactly the (at most 10) most recent samples
in insertion order — the insertion that would make an 11th entry evicts the
oldest. -/
theorem measurement_buffer_bounded_fifo :
    (∀ ops : List SysOp, ((ops.foldl sysStep initMState).measurements).length ≤ 10) ∧
    (∀ ms : List Meas, ms.foldl pushMeasurement [] = ms.drop (ms.length - 10)) :=
  ⟨fun ops => foldl_sysStep_length_le ops initMState (by simp [initMState]),
   foldl_pushMeasurement⟩

/-! ## C1: scale clamping -/

/-- C1 counterexample: `calculateScale` is not always within `[0.5, 3.0]` —
with auto-scale at its default (`false`) and the base scale set to 10 through
the public `setBaseScale`, `calculateScale` returns 10 for every measurement,
outside the claimed range. -/
theorem calculateScale_out_of_range_cex :
    ¬ (1/2 ≤ calculateScale stBase10 mFix ∧ calculateScale stBase10 mFix ≤ 3) := by
  have h : calculateScale stBase10 mFix = 10 := by
    simp [calculateScale, stBase10]
  rw [h]
  norm_num

/-- C1 amended: when auto-scale is enabled, `calculateScale` is clamped to
`[0.5, 3.0]` for every measurement; when auto-scale is disabled it returns
the base scale unchanged (unclamped); and the per-frame scale of
`drawGlasses` (`max(eyeDistance, earSpan) × scaleMultiplier`, with the
default multiplier 0.0025) is not confined to any bound: it exceeds any
candidate bound `B` at a large enough eye distance. -/
theorem calculateScale_amended (st : AutoState) (m : Meas) (B : ℝ) :
    (st.adjustScaleAutomatically = true →
      1/2 ≤ calculateScale st m ∧ calculateScale st m ≤ 3) ∧
    (st.adjustScaleAutomatically = false → calculateScale st m = st.baseScale) ∧
    (∃ e : ℝ, B < drawScaleOf e 0 (1/400)) := by
  refine ⟨?_, ?_, ?_⟩
  · intro hauto
    unfold calculateScale
    rw [hauto]
    simp only [if_true]
    constructor
    · exact le_trans (by norm_num) (le_max_left _ _)
    · exact max_le (by norm_num) (le_trans (min_le_left _ _) (by norm_num))
  · intro hauto
    unfold calculateScale
    rw [hauto]
    simp
  · refine ⟨400 * (|B| + 1), ?_⟩
    have he : (0:ℝ) ≤ 400 * (|B| + 1) := by positivity
    unfold drawScaleOf
    rw [max_eq_left he]
    have habs : B ≤ |B| := le_abs_self B
    nlinarith

/-- C1 amended witness at a concrete enabled state and measurement. -/
theorem calculateScale_amended_witness :
    (1/2 ≤ calculateScale stAutoOn mFix ∧ calculateScale stAutoOn mFix ≤ 3) ∧
    calculateScale stBase10 mFix = stBase10.baseScale :=
  ⟨(calculateScale_amended stAutoOn mFix 0).1 rfl,
   (calculateScale_amended stBase10 mFix 0).2.1 rfl⟩

/-! ## C5: persisted-settings loading -/

/-- C5 counterexample: a saved record lacking the `scale` key does not fall
back to the default scale — `loadSettings` replaces `currentSettings`
wholesale, so the loaded scale is absent (`undefined`), not the default. -/
theorem loadSettings_missing_field_cex :
    (loadSettings (some (Except.ok recNoScale)) defaultSettings).1.scale ≠
      defaultSettings.scale ∧
    (loadSettings (some (Except.ok recNoScale)) defaultSettings).1.posX = some 1 := by
  constructor
  · simp [loadSettings, recNoScale, defaultSettings]
  · rfl

/-- C5 amended: a missing stored record or a parse failure leaves the current
settings untouched and propagates no exception (`loadSettings` and
`loadBookmark` are total and return `false`); but missing fields are not
defaulted field-by-field — a successfully parsed record is copied into the
settings verbatim, field by field, leaving absent keys absent. -/
theorem load_parse_failure_amended (cur : GlassesSettings) (r : SavedRec)
    (curB : BookmarkAdjustments) (b : BookmarkAdjustments) :
    loadSettings none cur = (cur, false) ∧
    loadSettings (some (Except.error ())) cur = (cur, false) ∧
    loadSettings (some (Except.ok r)) cur =
      ({ posX := r.posX, posY := r.posY, posZ := r.posZ, scale := r.scale }, true) ∧
    loadBookmark none curB = (curB, false) ∧
    loadBookmark (some (Except.error ())) curB = (curB, false) ∧
    loadBookmark (some (Except.ok b)) curB =
      ({ positionX := b.positionX, positionY := b.positionY,
         positionZ := b.positionZ, rotationX := b.rotationX,
         rotationY := b.rotationY, rotationZ := b.rotationZ,
         scaleMultiplier := b.scaleMultiplier }, true) :=
  ⟨rfl, rfl, rfl, rfl, rfl, rfl⟩

/-! ## C6 and C10: confidence fraction, confidence gate, confidence range -/

theorem countAvailable_le_nine (L : Landmarks) : countAvailable L ≤ 9 := by
  unfold countAvailable
  have b1 := Bool.toNat_le L.leftTemple.isSome
  have b2 := Bool.toNat_le L.rightTemple.isSome
  have b3 := Bool.toNat_le L.noseBridge.isSome
  have b4 := Bool.toNat_le L.forehead.isSome
  have b5 := Bool.toNat_le L.chin.isSome
  have b6 := Bool.toNat_le L.leftEyeOuter.isSome
  have b7 := Bool.toNat_le L.rightEyeOuter.isSome
  have b8 := Bool.toNat_le L.leftEyeInner.isSome
  have b9 := Bool.toNat_le L.rightEyeInner.isSome
  omega

theorem three_le_countAvailable (L : Landmarks)
    (h1 : L.leftTemple.isSome = true) (h2 : L.rightTemple.isSome = true)
    (h3 : L.noseBridge.isSome = true) : 3 ≤ countAvailable L := by
  unfold countAvailable
  rw [h1, h2, h3]
  simp only [Bool.toNat_true]
  omega

/-- C6: a successful `measureFace` sample has confidence exactly
(number of resolvable landmarks among the nine expected) / 9, and the
auto-adjust consumer `updateAdjustments` invokes no adjustment callback for
any averaged measurement whose confidence is below 0.5. -/
theorem confidence_fraction_and_low_confidence_gate
    (st : MState) (L : Landmarks) (now : ℤ)
    (hthrottle : st.measurementInterval ≤ now - st.lastMeasurementTime)
    (hlt : L.leftTemple.isSome = true) (hrt : L.rightTemple.isSome = true)
    (hnb : L.noseBridge.isSome = true) :
    (measureFace st L now).1.map Meas.confidence =
      some ((countAvailable L : ℝ) / 9) ∧
    (∀ ast : AutoState, ∀ m : Meas, m.confidence < 1/2 →
      updateAdjustments ast (some m) = none) := by
  constructor
  · unfold measureFace
    rw [if_neg (by omega)]
    rcases hLT : L.leftTemple with _ | lt
    · rw [hLT] at hlt; exact absurd hlt (by simp)
    rcases hRT : L.rightTemple with _ | rt
    · rw [hRT] at hrt; exact absurd hrt (by simp)
    rcases hNB : L.noseBridge with _ | nb
    · rw [hNB] at hnb; exact absurd hnb (by simp)
    rfl
  · intro ast m hm
    unfold updateAdjustments
    by_cases hcond : (!ast.isAutoAdjustEnabled || !ast.hasCallback) = true
    · rw [if_pos hcond]
    · rw [if_neg hcond]
      have hconf : m.confidence < (0.5:ℝ) := by linarith
      simp [hconf]

/-- C6 witness at a concrete state, landmark set and clock. -/
theorem confidence_fraction_witness :
    (measureFace initMState allLandmarks 2000).1.map Meas.confidence =
      some ((countAvailable allLandmarks : ℝ) / 9) ∧
    (∀ ast : AutoState, ∀ m : Meas, m.confidence < 1/2 →
      updateAdjustments ast (some m) = none) :=
  confidence_fraction_and_low_confidence_gate initMState allLandmarks 2000
    (by decide) rfl rfl rfl

/-- C10: every measurement that `measureFace` returns has confidence between
1/3 and 1 — the three required landmarks are non-null and count toward the
nine-landmark fraction — and its `faceWidth` is always the distance between
the two actual temple landmarks, never a proportional estimate. -/
theorem measureFace_confidence_range
    (st : MState) (L : Landmarks) (now : ℤ) (lt rt : Pt)
    (hthrottle : st.measurementInterval ≤ now - st.lastMeasurementTime)
    (hlt : L.leftTemple = some lt) (hrt : L.rightTemple = some rt)
    (hnb : L.noseBridge.isSome = true) :
    ∃ m : Meas, (measureFace st L now).1 = some m ∧
      1/3 ≤ m.confidence ∧ m.confidence ≤ 1 ∧
      m.faceWidth = calculateDistance lt rt := by
  have h3 : 3 ≤ countAvailable L :=
    three_le_countAvailable L (by rw [hlt]; rfl) (by rw [hrt]; rfl) hnb
  have h9 : countAvailable L ≤ 9 := countAvailable_le_nine L
  have h3r : (3:ℝ) ≤ (countAvailable L : ℝ) := by exact_mod_cast h3
  have h9r : ((countAvailable L : ℝ)) ≤ 9 := by exact_mod_cast h9
  unfold measureFace
  rw [if_neg (by omega)]
  rcases hNB : L.noseBridge with _ | nb
  · rw [hNB] at hnb; exact absurd hnb (by simp)
  rw [hlt, hrt]
  refine ⟨_, rfl, ?_, ?_, rfl⟩
  · show (1:ℝ)/3 ≤ (countAvailable L : ℝ) / 9
    linarith
  · show ((countAvailable L : ℝ)) / 9 ≤ 1
    linarith

/-- C10 witness at a concrete state, landmark set and clock. -/
theorem measureFace_confidence_range_witness :
    ∃ m : Meas, (measureFace initMState allLandmarks 2000).1 = some m ∧
      1/3 ≤ m.confidence ∧ m.confidence ≤ 1 ∧
      m.faceWidth = calculateDistance p0 p0 :=
  measureFace_confidence_range initMState allLandmarks 2000 p0 p0
    (by decide) rfl rfl rfl

/-! ## C8: the render cache makes optimization idempotent -/

theorem optimizeOne_cached (st : RState) (u : ℕ) (hu : u ∈ st.cache) :
    optimizeOne st u = st := by
  unfold optimizeOne
  rw [if_pos hu]

theorem cache_subset_optimizeOne (st : RState) (u : ℕ) :
    st.cache ⊆ (optimizeOne st u).cache := by
  unfold optimizeOne
  split
  · exact fun x hx => hx
  · exact fun x hx => List.mem_cons_of_mem _ hx

theorem mem_cache_optimizeOne (st : RState) (u : ℕ) :
    u ∈ (optimizeOne st u).cache := by
  unfold optimizeOne
  split
  · assumption
  · exact List.mem_cons_self _ _

theorem cache_subset_foldl_optimizeOne (l : List ℕ) (st : RState) :
    st.cache ⊆ (l.foldl optimizeOne st).cache := by
  induction l generalizing st with
  | nil => exact fun x hx => hx
  | cons u l ih =>
    exact fun x hx => ih (optimizeOne st u) (cache_subset_optimizeOne st u hx)

theorem mem_cache_foldl_optimizeOne (l : List ℕ) (u : ℕ) (hu : u ∈ l) :
    ∀ st : RState, u ∈ (l.foldl optimizeOne st).cache := by
  induction l with
  | nil => cases hu
  | cons v l ih =>
    intro st
    rcases List.mem_cons.mp hu with h | h
    · subst h
      exact cache_subset_foldl_optimizeOne l (optimizeOne st u)
        (mem_cache_optimizeOne st u)
    · exact ih h (optimizeOne st v)

theorem foldl_optimizeOne_all_cached (l : List ℕ) (st : RState)
    (h : ∀ u ∈ l, u ∈ st.cache) : l.foldl optimizeOne st = st := by
  induction l with
  | nil => rfl
  | cons u l ih =>
    rw [List.foldl_cons, optimizeOne_cached st u (h u (List.mem_cons_self u l))]
    exact ih fun v hv => h v (List.mem_cons_of_mem u hv)

theorem addMesh_store (st : RState) (m : Mesh) :
    (addMesh st m).store = (optimizeMaterial st m).store := by
  simp only [addMesh]
  split <;> rfl

theorem addMesh_cache (st : RState) (m : Mesh) :
    (addMesh st m).cache = (optimizeMaterial st m).cache := by
  simp only [addMesh]
  split <;> rfl

/-- C8: material optimization is idempotent by material identity — adding a
second mesh whose materials were all seen while adding a first mesh hits the
render cache, and the whole material heap (hence every optimized
depthWrite/depthTest/side/alphaTest/blending setting) is left exactly as it
was after the first sighting. -/
theorem optimizeMaterial_cache_idempotent
    (st : RState) (oid1 oid2 : ℕ) (m1 m2 : Mesh) (hsub : m2.mats ⊆ m1.mats) :
    (addObject (addObject st (Obj.mk oid1 [m1])) (Obj.mk oid2 [m2])).store =
      (addObject st (Obj.mk oid1 [m1])).store := by
  have hcache : ∀ u ∈ m2.mats, u ∈ (addObject st (Obj.mk oid1 [m1])).cache := by
    intro u hu
    have h1 : (addObject st (Obj.mk oid1 [m1])).cache =
        (optimizeMaterial { st with scene := st.scene ++ [oid1] } m1).cache := by
      show ((List.foldl addMesh _ [m1]).cache) = _
      rw [List.foldl_cons, List.foldl_nil, addMesh_cache]
    rw [h1]
    exact mem_cache_foldl_optimizeOne m1.mats u (hsub hu) _
  show ((List.foldl addMesh _ [m2]).store) = _
  rw [List.foldl_cons, List.foldl_nil, addMesh_store]
  have hfold := foldl_optimizeOne_all_cached m2.mats
    { addObject st (Obj.mk oid1 [m1]) with
        scene := (addObject st (Obj.mk oid1 [m1])).scene ++ [oid2] }
    hcache
  have hst := congrArg RState.store hfold
  exact hst

/-- C8 witness at a concrete renderer state and a material shared by two
meshes added through two `addObject` calls. -/
theorem optimizeMaterial_cache_idempotent_witness :
    (addObject (addObject rInit (Obj.mk 10 [Mesh.mk 1 [7]]))
        (Obj.mk 11 [Mesh.mk 2 [7]])).store =
      (addObject rInit (Obj.mk 10 [Mesh.mk 1 [7]])).store :=
  optimizeMaterial_cache_idempotent rInit 10 11 (Mesh.mk 1 [7]) (Mesh.mk 2 [7])
    (by decide)

/-! ## C9: removeObject undoes addObject on the tracking state -/

theorem foldl_optimizeOne_opaqueObjs (l : List ℕ) (st : RState) :
    (l.foldl optimizeOne st).opaqueObjs = st.opaqueObjs := by
  induction l generalizing st with
  | nil => rfl
  | cons u l ih =>
    rw [List.foldl_cons, ih]
    unfold optimizeOne
    split <;> rfl

theorem foldl_optimizeOne_transparentObjs (l : List ℕ) (st : RState) :
    (l.foldl optimizeOne st).transparentObjs = st.transparentObjs := by
  induction l generalizing st with
  | nil => rfl
  | cons u l ih =>
    rw [List.foldl_cons, ih]
    unfold optimizeOne
    split <;> rfl

theorem foldl_optimizeOne_scene (l : List ℕ) (st : RState) :
    (l.foldl optimizeOne st).scene = st.scene := by
  induction l generalizing st with
  | nil => rfl
  | cons u l ih =>
    rw [List.foldl_cons, ih]
    unfold optimizeOne
    split <;> rfl

theorem addMesh_scene (st : RState) (m : Mesh) :
    (addMesh st m).scene = st.scene := by
  simp only [addMesh]
  split <;> exact foldl_optimizeOne_scene m.mats st

theorem foldl_addMesh_scene (l : List Mesh) (st : RState) :
    (l.foldl addMesh st).scene = st.scene := by
  induction l generalizing st with
  | nil => rfl
  | cons m l ih => rw [List.foldl_cons, ih, addMesh_scene]

theorem addMesh_opaque_sub (st : RState) (m : Mesh) :
    List.Sublist ((addMesh st m).opaqueObjs) (st.opaqueObjs ++ [m.id]) := by
  simp only [addMesh]
  split
  · show List.Sublist ((optimizeMaterial st m).opaqueObjs) (st.opaqueObjs ++ [m.id])
    rw [show (optimizeMaterial st m).opaqueObjs = st.opaqueObjs from
      foldl_optimizeOne_opaqueObjs m.mats st]
    exact List.sublist_append_left _ _
  · show List.Sublist ((optimizeMaterial st m).opaqueObjs ++ [m.id]) (st.opaqueObjs ++ [m.id])
    rw [show (optimizeMaterial st m).opaqueObjs = st.opaqueObjs from
      foldl_optimizeOne_opaqueObjs m.mats st]

theorem addMesh_transparent_sub (st : RState) (m : Mesh) :
    List.Sublist ((addMesh st m).transparentObjs) (st.transparentObjs ++ [m.id]) := by
  simp only [addMesh]
  split
  · show List.Sublist ((optimizeMaterial st m).transparentObjs ++ [m.id])
      (st.transparentObjs ++ [m.id])
    rw [show (optimizeMaterial st m).transparentObjs = st.transparentObjs from
      foldl_optimizeOne_transparentObjs m.mats st]
  · show List.Sublist ((optimizeMaterial st m).transparentObjs) (st.transparentObjs ++ [m.id])
    rw [show (optimizeMaterial st m).transparentObjs = st.transparentObjs from
      foldl_optimizeOne_transparentObjs m.mats st]
    exact List.sublist_append_left _ _

theorem foldl_addMesh_bucket_sublist (l : List Mesh) (st : RState) :
    List.Sublist ((l.foldl addMesh st).opaqueObjs) (st.opaqueObjs ++ l.map Mesh.id) ∧
    List.Sublist ((l.foldl addMesh st).transparentObjs)
      (st.transparentObjs ++ l.map Mesh.id) := by
  induction l generalizing st with
  | nil => simp
  | cons m l ih =>
    rcases ih (addMesh st m) with ⟨iho, iht⟩
    constructor
    · have h1 := iho.trans ((addMesh_opaque_sub st m).append_right (l.map Mesh.id))
      simpa using h1
    · have h1 := iht.trans ((addMesh_transparent_sub st m).append_right (l.map Mesh.id))
      simpa using h1

theorem erase_sublist_cons {α : Type} [DecidableEq α] {s t : List α} {a : α}
    (h : List.Sublist s (a :: t)) : List.Sublist (s.erase a) t := by
  cases h with
  | cons _ h1 => exact (List.erase_sublist a s).trans h1
  | cons₂ _ h1 => simpa [List.erase_cons_head] using h1

theorem foldl_removeMesh_empty (l : List Mesh) (st : RState)
    (ho : List.Sublist st.opaqueObjs (l.map Mesh.id))
    (ht : List.Sublist st.transparentObjs (l.map Mesh.id)) :
    (l.foldl removeMesh st).opaqueObjs = [] ∧
    (l.foldl removeMesh st).transparentObjs = [] := by
  induction l generalizing st with
  | nil => exact ⟨List.sublist_nil.mp ho, List.sublist_nil.mp ht⟩
  | cons m l ih =>
    rw [List.foldl_cons]
    exact ih (removeMesh st m) (erase_sublist_cons (by simpa using ho))
      (erase_sublist_cons (by simpa using ht))

theorem foldl_removeMesh_scene (l : List Mesh) (st : RState) :
    (l.foldl removeMesh st).scene = st.scene := by
  induction l generalizing st with
  | nil => rfl
  | cons m l ih =>
    rw [List.foldl_cons, ih]
    rfl

/-- C9: starting from empty buckets and an empty scene, `removeObject` after
`addObject` of the same subtree leaves both the opaque and the transparent
bucket empty and the scene graph free of the removed object. -/
theorem removeObject_inverse_addObject (st : RState) (o : Obj)
    (ho : st.opaqueObjs = []) (ht : st.transparentObjs = []) (hs : st.scene = []) :
    (removeObject (addObject st o) o).opaqueObjs = [] ∧
    (removeObject (addObject st o) o).transparentObjs = [] ∧
    (removeObject (addObject st o) o).scene = [] := by
  have hadd := foldl_addMesh_bucket_sublist o.meshes
    { st with scene := st.scene ++ [o.id] }
  have haddO : List.Sublist ((addObject st o).opaqueObjs) (o.meshes.map Mesh.id) := by
    have h : List.Sublist ((addObject st o).opaqueObjs)
        (st.opaqueObjs ++ o.meshes.map Mesh.id) := hadd.1
    rw [ho] at h
    simpa using h
  have haddT : List.Sublist ((addObject st o).transparentObjs) (o.meshes.map Mesh.id) := by
    have h : List.Sublist ((addObject st o).transparentObjs)
        (st.transparentObjs ++ o.meshes.map Mesh.id) := hadd.2
    rw [ht] at h
    simpa using h
  have hrem := foldl_removeMesh_empty o.meshes
    { addObject st o with scene := ((addObject st o).scene).erase o.id }
    haddO haddT
  refine ⟨hrem.1, hrem.2, ?_⟩
  have h1 : (removeObject (addObject st o) o).scene =
      ((addObject st o).scene).erase o.id := by
    show ((o.meshes.foldl removeMesh _).scene) = _
    rw [foldl_removeMesh_scene]
  have h2 : (addObject st o).scene = st.scene ++ [o.id] := by
    show ((o.meshes.foldl addMesh _).scene) = _
    rw [foldl_addMesh_scene]
  rw [h1, h2, hs]
  simp

/-- C9 witness at a concrete fresh renderer and one-mesh object. -/
theorem removeObject_inverse_addObject_witness :
    (removeObject (addObject rInit objW) objW).opaqueObjs = [] ∧
    (removeObject (addObject rInit objW) objW).transparentObjs = [] ∧
    (removeObject (addObject rInit objW) objW).scene = [] :=
  removeObject_inverse_addObject rInit objW rfl rfl rfl

/-! ## C2: bucketing, render order and depthWrite on addObject -/

theorem optimizeStandard_of_opaqueish (m : Material)
    (h1 : m.transparent = false) (h2 : 1 ≤ m.opacity) :
    optimizeStandard m =
      { m with transparent := false, alphaTest := 0, depthWrite := true,
               depthTest := true, side := Side.front, alphaToCoverage := false } := by
  unfold optimizeStandard
  rw [if_pos (by simp only [h1, Bool.not_false, Bool.true_and,
    decide_eq_true_eq]; exact h2)]

theorem optimizeStandard_of_transparentish (m : Material)
    (h : m.transparent = true ∨ m.opacity < 1) :
    optimizeStandard m =
      { m with transparent := true, depthWrite := false, depthTest := true,
               side := Side.double, alphaTest := 1/100, alphaToCoverage := true,
               blending := normalBlending, blendSrc := srcAlphaFactor,
               blendDst := oneMinusSrcAlphaFactor } := by
  have hcond : ¬ ((!m.transparent && decide (1 ≤ m.opacity)) = true) := by
    simp only [Bool.and_eq_true, Bool.not_eq_true', decide_eq_true_eq]
    rintro ⟨h1, h2⟩
    rcases h with h | h
    · rw [h1] at h; cases h
    · exact absurd h2 (not_le.mpr h)
  unfold optimizeStandard
  rw [if_neg hcond]

/-- C2 counterexample: on a subtree with one opaque mesh and one transparent
mesh whose lens material is not a `MeshStandardMaterial`/`MeshPhysicalMaterial`
(for example a `MeshBasicMaterial`), `addObject` buckets and orders the meshes
as claimed but does not set `depthWrite` to `false` on the transparent
material — the `instanceof` guard in `optimizeMaterial` skips it, so
`depthWrite` stays `true`. -/
theorem addObject_nonstandard_depthWrite_cex :
    (addObject rInit objFrameLens).opaqueObjs = [1] ∧
    (addObject rInit objFrameLens).transparentObjs = [2] ∧
    (addObject rInit objFrameLens).renderOrder 1 = 0 ∧
    (addObject rInit objFrameLens).renderOrder 2 = 100 ∧
    ((addObject rInit objFrameLens).store 2).transparent = true ∧
    ((addObject rInit objFrameLens).store 2).depthWrite = true := by
  decide

/-- C2 amended: on a fresh renderer, `addObject` of a subtree with one opaque
mesh and one transparent mesh (transparent iff its `transparent` flag is set
or its opacity is below 1) puts exactly one mesh in each bucket, gives the
opaque mesh render order 0 and the transparent mesh the strictly greater
render order 100, and — provided both materials are
standard/physical materials, the only ones `optimizeMaterial` mutates — sets
`depthWrite` to `false` on the transparent material and leaves it `true` on
the opaque one. -/
theorem addObject_buckets_amended
    (store0 : ℕ → Material) (ro0 : ℕ → ℤ) (sc0 : List ℕ)
    (moid mtid oid uo ut : ℕ)
    (hneM : moid ≠ mtid) (hneU : uo ≠ ut)
    (hstdO : (store0 uo).isStandard = true) (hstdT : (store0 ut).isStandard = true)
    (hOtr : (store0 uo).transparent = false) (hOop : 1 ≤ (store0 uo).opacity)
    (hT : (store0 ut).transparent = true ∨ (store0 ut).opacity < 1) :
    (addObject
        { store := store0, cache := [], opaqueObjs := [], transparentObjs := [],
          renderOrder := ro0, scene := sc0 }
        (Obj.mk oid [Mesh.mk moid [uo], Mesh.mk mtid [ut]])).opaqueObjs = [moid] ∧
    (addObject
        { store := store0, cache := [], opaqueObjs := [], transparentObjs := [],
          renderOrder := ro0, scene := sc0 }
        (Obj.mk oid [Mesh.mk moid [uo], Mesh.mk mtid [ut]])).transparentObjs = [mtid] ∧
    (addObject
        { store := store0, cache := [], opaqueObjs := [], transparentObjs := [],
          renderOrder := ro0, scene := sc0 }
        (Obj.mk oid [Mesh.mk moid [uo], Mesh.mk mtid [ut]])).renderOrder moid = 0 ∧
    (addObject
        { store := store0, cache := [], opaqueObjs := [], transparentObjs := [],
          renderOrder := ro0, scene := sc0 }
        (Obj.mk oid [Mesh.mk moid [uo], Mesh.mk mtid [ut]])).renderOrder mtid = 100 ∧
    ((addObject
        { store := store0, cache := [], opaqueObjs := [], transparentObjs := [],
          renderOrder := ro0, scene := sc0 }
        (Obj.mk oid [Mesh.mk moid [uo], Mesh.mk mtid [ut]])).store ut).depthWrite
      = false ∧
    ((addObject
        { store := store0, cache := [], opaqueObjs := [], transparentObjs := [],
          renderOrder := ro0, scene := sc0 }
        (Obj.mk oid [Mesh.mk moid [uo], Mesh.mk mtid [ut]])).store uo).depthWrite
      = true := by
  have hO := optimizeStandard_of_opaqueish (store0 uo) hOtr hOop
  have hTr := optimizeStandard_of_transparentish (store0 ut) hT
  have hOop2 : ¬ ((store0 uo).opacity < 1) := not_lt.mpr hOop
  have hneU2 : ¬ (ut = uo) := fun hh => hneU hh.symm
  refine ⟨?_, ?_, ?_, ?_, ?_, ?_⟩ <;>
    simp [addObject, addMesh, optimizeMaterial, optimizeOne, hasTransparency,
      setMat, hO, hTr, hstdO, hstdT, hOtr, hOop2, hneU2, hneM, hneU]

/-- C2 amended witness at a concrete fresh renderer, frame material (uuid 1)
and standard lens material (uuid 2). -/
theorem addObject_buckets_amended_witness :
    (addObject
        { store := storeFrameLens, cache := [], opaqueObjs := [],
          transparentObjs := [], renderOrder := fun _ => 0, scene := [] }
        (Obj.mk 6 [Mesh.mk 1 [1], Mesh.mk 2 [2]])).opaqueObjs = [1] ∧
    (addObject
        { store := storeFrameLens, cache := [], opaqueObjs := [],
          transparentObjs := [], renderOrder := fun _ => 0, scene := [] }
        (Obj.mk 6 [Mesh.mk 1 [1], Mesh.mk 2 [2]])).transparentObjs = [2] ∧
    (addObject
        { store := storeFrameLens, cache := [], opaqueObjs := [],
          transparentObjs := [], renderOrder := fun _ => 0, scene := [] }
        (Obj.mk 6 [Mesh.mk 1 [1], Mesh.mk 2 [2]])).renderOrder 1 = 0 ∧
    (addObject
        { store := storeFrameLens, cache := [], opaqueObjs := [],
          transparentObjs := [], renderOrder := fun _ => 0, scene := [] }
        (Obj.mk 6 [Mesh.mk 1 [1], Mesh.mk 2 [2]])).renderOrder 2 = 100 ∧
    ((addObject
        { store := storeFrameLens, cache := [], opaqueObjs := [],
          transparentObjs := [], renderOrder := fun _ => 0, scene := [] }
        (Obj.mk 6 [Mesh.mk 1 [1], Mesh.mk 2 [2]])).store 2).depthWrite = false ∧
    ((addObject
        { store := storeFrameLens, cache := [], opaqueObjs := [],
          transparentObjs := [], renderOrder := fun _ => 0, scene := [] }
        (Obj.mk 6 [Mesh.mk 1 [1], Mesh.mk 2 [2]])).store 1).depthWrite = true :=
  addObject_buckets_amended storeFrameLens (fun _ => 0) [] 1 2 6 1 2
    (by decide) (by decide) rfl rfl rfl (by decide) (Or.inl rfl)

/-! ## C3: missing-landmark behavior of the pose computation -/

/-- C3 counterexample: a landmark set that passes the eye-outer/nose-bridge
guard but lacks the inner-eye landmark 133 (here it also lacks the required
ear anchor 234, so it is a set missing a required anchor) makes `drawGlasses`
throw a `TypeError` at the unguarded access `leftEyeInner.x` instead of
leaving the transform untouched without an exception. -/
theorem drawGlassesPose_missing_inner_eye_cex :
    lmGuardOnly 234 = none ∧
    drawGlassesPose lmGuardOnly adj0 640 480 id t0 = Except.error () := by
  constructor
  · simp [lmGuardOnly]
  · simp [drawGlassesPose, lmGuardOnly]

/-- C3 amended: the pose computation leaves the prior transform untouched and
throws nothing whenever one of the guarded anchors 33, 263, 168 is missing,
or whenever those three and the unguarded inner-eye landmarks 133 and 362 are
all present and one of the 3D-branch anchors (ears 234/454, nose tip 4,
forehead 10) is missing. If 133 or 362 is missing while the guard passes, the
code instead throws. -/
theorem drawGlassesPose_noop_amended (lm : ℕ → Option Pt) (adj : Adjustments)
    (w h : ℝ) (unproj : ℝ × ℝ × ℝ → ℝ × ℝ × ℝ) (prior : Transform)
    (hcase : (lm 33 = none ∨ lm 263 = none ∨ lm 168 = none) ∨
      ((lm 33).isSome = true ∧ (lm 263).isSome = true ∧ (lm 168).isSome = true ∧
       (lm 133).isSome = true ∧ (lm 362).isSome = true ∧
       (lm 234 = none ∨ lm 454 = none ∨ lm 4 = none ∨ lm 10 = none))) :
    drawGlassesPose lm adj w h unproj prior = Except.ok prior := by
  unfold drawGlassesPose
  rcases hcase with (h | h | h) | ⟨h33, h263, h168, h133, h362, hmiss⟩
  · rw [h]
  · rw [h]
    rcases hx : lm 33 with _ | b <;> rcases hy : lm 168 with _ | c <;> rfl
  · rw [h]
    rcases hx : lm 33 with _ | b <;> rcases hy : lm 263 with _ | c <;> rfl
  · obtain ⟨q33, e33⟩ := Option.isSome_iff_exists.mp h33
    obtain ⟨q263, e263⟩ := Option.isSome_iff_exists.mp h263
    obtain ⟨q168, e168⟩ := Option.isSome_iff_exists.mp h168
    obtain ⟨q133, e133⟩ := Option.isSome_iff_exists.mp h133
    obtain ⟨q362, e362⟩ := Option.isSome_iff_exists.mp h362
    rw [e33, e263, e168, e133, e362]
    rcases hmiss with h | h | h | h
    · rw [h]
    · rw [h]
      rcases hx : lm 234 with _ | a <;> rcases hy : lm 4 with _ | b <;>
        rcases hz : lm 10 with _ | c <;> rfl
    · rw [h]
      rcases hx : lm 234 with _ | a <;> rcases hy : lm 454 with _ | b <;>
        rcases hz : lm 10 with _ | c <;> rfl
    · rw [h]
      rcases hx : lm 234 with _ | a <;> rcases hy : lm 454 with _ | b <;>
        rcases hz : lm 4 with _ | c <;> rfl

/-- C3 amended witness: with every landmark present except ear 234, the pose
computation returns the prior transform unchanged. -/
theorem drawGlassesPose_noop_amended_witness :
    drawGlassesPose lmNoLeftEar adj0 640 480 id t0 = Except.ok t0 :=
  drawGlassesPose_noop_amended lmNoLeftEar adj0 640 480 id t0
    (Or.inr ⟨rfl, rfl, rfl, rfl, rfl, Or.inl rfl⟩)

/-! ## C4: rotation formulas and Euler order -/

theorem eulerApply_yxz_distinct (o : EulerOrder) (ho : o ≠ EulerOrder.yxz) :
    eulerApply o 0.1 0.2 0.3 (0, 0, 1) ≠
      eulerApply EulerOrder.yxz 0.1 0.2 0.3 (0, 0, 1) := by
  have hpi : (3:ℝ) < Real.pi := Real.pi_gt_three
  have hs1 : 0 < Real.sin 0.1 :=
    Real.sin_pos_of_pos_of_lt_pi (by norm_num) (by linarith)
  have hs2 : 0 < Real.sin 0.2 :=
    Real.sin_pos_of_pos_of_lt_pi (by norm_num) (by linarith)
  have hs3 : 0 < Real.sin 0.3 :=
    Real.sin_pos_of_pos_of_lt_pi (by norm_num) (by linarith)
  have hc1p : 0 < Real.cos 0.1 :=
    Real.cos_pos_of_mem_Ioo (Set.mem_Ioo.mpr ⟨by linarith, by linarith⟩)
  have hc2p : 0 < Real.cos 0.2 :=
    Real.cos_pos_of_mem_Ioo (Set.mem_Ioo.mpr ⟨by linarith, by linarith⟩)
  have hc3p : 0 < Real.cos 0.3 :=
    Real.cos_pos_of_mem_Ioo (Set.mem_Ioo.mpr ⟨by linarith, by linarith⟩)
  have hc1 : Real.cos 0.1 < 1 := by
    have h := Real.cos_lt_cos_of_nonneg_of_le_pi (le_refl 0) (by linarith)
      (by norm_num : (0:ℝ) < 0.1)
    rwa [Real.cos_zero] at h
  have hc2 : Real.cos 0.2 < 1 := by
    have h := Real.cos_lt_cos_of_nonneg_of_le_pi (le_refl 0) (by linarith)
      (by norm_num : (0:ℝ) < 0.2)
    rwa [Real.cos_zero] at h
  have hc3 : Real.cos 0.3 < 1 := by
    have h := Real.cos_lt_cos_of_nonneg_of_le_pi (le_refl 0) (by linarith)
      (by norm_num : (0:ℝ) < 0.3)
    rwa [Real.cos_zero] at h
  intro heq
  have h2 := congrArg (fun v : ℝ × ℝ × ℝ => v.2.1) heq
  cases o with
  | yxz => exact ho rfl
  | xyz =>
    simp [eulerApply, rotXv, rotYv, rotZv] at h2
    nlinarith [mul_pos hs1 (sub_pos.mpr hc2)]
  | zxy =>
    simp [eulerApply, rotXv, rotYv, rotZv] at h2
    have hcc : Real.cos 0.3 * Real.cos 0.2 < 1 := by
      nlinarith [mul_pos (sub_pos.mpr hc3) hc2p, Real.cos_le_one (0.2 : ℝ)]
    nlinarith [mul_pos hs3 hs2, mul_pos hs1 (sub_pos.mpr hcc)]
  | zyx =>
    simp [eulerApply, rotXv, rotYv, rotZv] at h2
    nlinarith [mul_pos (mul_pos hs3 hs2) hc1p, mul_pos hs1 (sub_pos.mpr hc3)]
  | yzx =>
    simp [eulerApply, rotXv, rotYv, rotZv] at h2
    nlinarith [mul_pos hs1 (sub_pos.mpr hc3)]
  | xzy =>
    simp [eulerApply, rotXv, rotYv, rotZv] at h2
    nlinarith [mul_pos (mul_pos hc1p hs3) hs2, mul_pos hs1 (sub_pos.mpr hc2)]

/-- C4: with all anchors present the pose computation sets the Euler order to
YXZ (yaw, then pitch, then roll), with yaw `(rightEar.z - leftEar.z) * 2`
(positive when the right ear is farther, i.e. has larger z), pitch
`(forehead.z - noseTip.z) * 3`, and roll the `atan2` angle of the pixel-space
line from the left ear to the right ear — each summed with the manual
adjustment offsets; and the composed Y→X→Z orientation at yaw 0.2, pitch 0.1,
roll 0.3 is distinct from the composition in any other Euler order. -/
theorem drawGlasses_rotation_order
    (lm : ℕ → Option Pt) (adj : Adjustments) (w h : ℝ)
    (unproj : ℝ × ℝ × ℝ → ℝ × ℝ × ℝ) (prior : Transform)
    (q33 q263 q168 q133 q362 le re nt fh : Pt) (o : EulerOrder)
    (h33 : lm 33 = some q33) (h263 : lm 263 = some q263)
    (h168 : lm 168 = some q168) (h133 : lm 133 = some q133)
    (h362 : lm 362 = some q362) (h234 : lm 234 = some le)
    (h454 : lm 454 = some re) (h4 : lm 4 = some nt) (h10 : lm 10 = some fh)
    (ho : o ≠ EulerOrder.yxz) :
    (∃ t : Transform, drawGlassesPose lm adj w h unproj prior = Except.ok t ∧
      t.rotOrder = EulerOrder.yxz ∧
      t.rotY = (re.z - le.z) * 2 + adj.rotationY ∧
      t.rotX = (fh.z - nt.z) * 3 + adj.rotationX ∧
      t.rotZ = atan2 (re.y * h - le.y * h) (re.x * w - le.x * w) +
        adj.rotationZ ∧
      (adj.rotationY = 0 → le.z < re.z → 0 < t.rotY)) ∧
    eulerApply o 0.1 0.2 0.3 (0, 0, 1) ≠
      eulerApply EulerOrder.yxz 0.1 0.2 0.3 (0, 0, 1) := by
  constructor
  · unfold drawGlassesPose
    rw [h33, h263, h168, h133, h362, h234, h454, h4, h10]
    refine ⟨_, rfl, rfl, rfl, rfl, rfl, ?_⟩
    intro hy hz
    show 0 < (re.z - le.z) * 2 + adj.rotationY
    rw [hy]
    linarith
  · exact eulerApply_yxz_distinct o ho

/-- C4 witness at a concrete landmark set with every landmark present, and
the concrete alternative order X→Y→Z. -/
theorem drawGlasses_rotation_order_witness :
    (∃ t : Transform, drawGlassesPose lmAll adj0 640 480 id t0 = Except.ok t ∧
      t.rotOrder = EulerOrder.yxz ∧
      t.rotY = (p0.z - p0.z) * 2 + adj0.rotationY ∧
      t.rotX = (p0.z - p0.z) * 3 + adj0.rotationX ∧
      t.rotZ = atan2 (p0.y * 480 - p0.y * 480) (p0.x * 640 - p0.x * 640) +
        adj0.rotationZ ∧
      (adj0.rotationY = 0 → p0.z < p0.z → 0 < t.rotY)) ∧
    eulerApply EulerOrder.xyz 0.1 0.2 0.3 (0, 0, 1) ≠
      eulerApply EulerOrder.yxz 0.1 0.2 0.3 (0, 0, 1) :=
  drawGlasses_rotation_order lmAll adj0 640 480 id t0 p0 p0 p0 p0 p0 p0 p0 p0
    p0 EulerOrder.xyz rfl rfl rfl rfl rfl rfl rfl rfl rfl (by decide)

end Tryon
